import Mathlib

/-!
Verification of the CircularManuSystem repository: a shallow embedding of
`data_logger.py`, `station_controller.py` and `sensor_reader.py` in Lean 4,
with theorems settling the behavioural claims about the station state
machine, the event/KPI store and the sensor-bank construction.

Conventions of the embedding:
* Python objects become immutable Lean structures; a method that mutates
  `self` becomes a function returning the updated structure.
* External effects (sensor reads, waits, tag reads, the wall clock) are
  inputs, packaged in an `Env` structure: each field is the value the
  corresponding collaborator call returns during one handler run.
* Motor actuation and sleeps become an explicit command trace
  (`List Act`); durations are in milliseconds.
* The one run-time exception reachable in the handlers (reading
  `current_part.part_id` when `current_part` is `None` in a timeout
  branch) is modelled by an `exn` flag in the step result, carrying the
  object state at the raise point.
-/

namespace Manu

/-- One logged event: the arguments of a `DataLogger.log_event` call
(`part_id`, `station_id`, `activity`); the wall-clock timestamp is
supplied separately where the row format needs it. -/
structure Event where
  part_id : String
  station_id : String
  activity : String
deriving DecidableEq, Repr

/-- The KPI counter dictionary of `DataLogger.__init__` (`self.kpis`). -/
structure KPIs where
  total_parts : Nat
  station1_count : Nat
  station2_count : Nat
  total_process_time : Nat
  total_queue_time : Nat
deriving DecidableEq, Repr

/-- `DataLogger.__init__`: all KPI counters start at zero. -/
def KPIs.fresh : KPIs :=
  { total_parts := 0
    station1_count := 0
    station2_count := 0
    total_process_time := 0
    total_queue_time := 0 }

/-- `DataLogger._update_kpis`: only an `"EXIT"` activity touches the
counters; it increments `total_parts`, and the matching per-station
counter when `station_id` is `"S1"` or `"S2"`. -/
def KPIs.update (k : KPIs) (station_id activity : String) : KPIs :=
  if activity == "EXIT" then
    let k1 := { k with total_parts := k.total_parts + 1 }
    if station_id == "S1" then
      { k1 with station1_count := k1.station1_count + 1 }
    else if station_id == "S2" then
      { k1 with station2_count := k1.station2_count + 1 }
    else k1
  else k

/-- One CSV row of the event record, as written by `log_event`:
`[timestamp, station_id, part_id, activity]`. -/
structure Row where
  time : String
  station_id : String
  part_id : String
  activity : String
deriving DecidableEq, Repr

/-- The `DataLogger` object: the rows appended so far to the CSV file and
the in-memory KPI dictionary. The `threading.Lock` held around the
append and the counter update serialises the two into the single atomic
step `log_event` below. -/
structure DataLogger where
  rows : List Row
  kpis : KPIs
deriving DecidableEq, Repr

/-- A freshly constructed `DataLogger` over a new (empty) CSV file. -/
def DataLogger.fresh : DataLogger := { rows := [], kpis := KPIs.fresh }

/-- `DataLogger.log_event`: inside the lock, append one CSV row and then
update the KPI counters. `ts` is the `datetime.now()` timestamp string
computed before entering the lock. -/
def DataLogger.log_event (d : DataLogger) (ts part_id station_id activity : String) :
    DataLogger :=
  { rows := d.rows ++ [{ time := ts, station_id := station_id,
                         part_id := part_id, activity := activity }]
    kpis := d.kpis.update station_id activity }

/-- `DataLogger.get_kpis`: returns a copy of the counter dictionary. -/
def DataLogger.get_kpis (d : DataLogger) : KPIs := d.kpis

/-- One recorded `log_event` call: timestamp plus the three arguments. -/
structure LogCall where
  ts : String
  part_id : String
  station_id : String
  activity : String
deriving DecidableEq, Repr

/-- Replay a finite sequence of `log_event` calls on a logger. -/
def DataLogger.replay (d : DataLogger) : List LogCall → DataLogger
  | [] => d
  | c :: cs => (d.log_event c.ts c.part_id c.station_id c.activity).replay cs

/-- Modelled from the spec: the `Part` entity is defined in `nfc_reader.py`,
which is not among the repository's source files here; only its use sites
appear in `station_controller.py`. Per the spec's data model a Part carries
an "identifier (string, either from a tag read or generated)" and an
"ordered sequence of (station_id, activity, timestamp) events, append-only".
Timestamps inside the history are abstracted away. -/
structure Part where
  part_id : String
  history : List (String × String)
deriving DecidableEq, Repr

/-- Modelled from the spec: `Part(identifier)` constructs a part with the
given identifier and an empty history. -/
def Part.fromId (id : String) : Part := { part_id := id, history := [] }

/-- Modelled from the spec: `Part.add_event(station_id, activity)` appends
one entry to the part's ordered history. -/
def Part.add_event (p : Part) (station_id activity : String) : Part :=
  { p with history := p.history ++ [(station_id, activity)] }

/-- The `StationState` enum of `station_controller.py`. -/
inductive StationState where
  | IDLE
  | ADVANCING_TO_PROCESS
  | PROCESSING
  | ADVANCING_TO_EXIT
  | EXITING
deriving DecidableEq, Repr

/-- The configuration values `StationController.__init__` reads:
`config['stations']['station1_process_time']`,
`config['stations']['station2_process_time']` (milliseconds here) and
`config['motors']['station_speed']`. -/
structure Config where
  station1_process_time : Nat
  station2_process_time : Nat
  station_speed : Int
deriving DecidableEq, Repr

/-- The mutable fields of a `StationController` object together with its
construction-time constants. `spawn_count` counts the loop threads spawned
so far (each `Thread(...)` created by `start` is numbered by it) and
`thread` holds the number of the current one, so that thread creation is
observable in the embedding. -/
structure StationController where
  station_num : Nat
  station_id : String
  process_time : Nat
  motor_speed : Int
  motor_num : Nat
  state : StationState
  current_part : Option Part
  queue : List Part
  running : Bool
  stop_event : Bool
  thread : Option Nat
  spawn_count : Nat
deriving DecidableEq, Repr

/-- `StationController.__init__`: station 1 runs its motor forward at the
configured speed, station 2 in reverse; motor number is `2 + station_num`;
the initial state is IDLE with no current part and no thread running. -/
def StationController.init (station_num : Nat) (config : Config) : StationController :=
  { station_num := station_num
    station_id := "S" ++ toString station_num
    process_time := if station_num == 1 then config.station1_process_time
                    else config.station2_process_time
    motor_speed := if station_num == 1 then config.station_speed
                   else -config.station_speed
    motor_num := 2 + station_num
    state := StationState.IDLE
    current_part := none
    queue := []
    running := false
    stop_event := false
    thread := none
    spawn_count := 0 }

/-- One handler-run environment: the values returned by the collaborator
calls a single state-handler invocation can make. Sensor methods and
`wait_for_pi` live in the sensor bank (their bodies are outside the
controller); each field is the boolean such a call returns during this
run. `now_ms` is `time.time() * 1000` at the fallback-id generation point,
and `nfc_tag` is the result of `nfc.read_tag(timeout=2.0)`. -/
structure Env where
  station1_entry_before : Bool
  station2_entry_before : Bool
  nfc_tag : Option String
  station1_entry_after : Bool
  station2_entry_after : Bool
  now_ms : Nat
  wait_station1_process : Bool
  wait_station2_process : Bool
  wait_station1_exit : Bool
  wait_station2_exit : Bool
  station1_exit_clears : Bool
  station2_exit_clears : Bool
deriving DecidableEq, Repr

/-- Observable actuator/timing commands a handler or the loop issues:
`motors.set_speed`, `motors.stop`, `time.sleep` (milliseconds) and
`thread.join` (timeout in milliseconds). -/
inductive Act where
  | set_speed (motor_num : Nat) (speed : Int)
  | stop (motor_num : Nat)
  | sleep (ms : Nat)
  | join (timeout_ms : Nat)
deriving DecidableEq, Repr

/-- Result of running one state handler: the controller object afterwards,
the `log_event` calls made, the actuator/timing commands issued, whether
the handler raised (`exn = true` models the `AttributeError` from reading
`current_part.part_id` while `current_part` is `None`; `ctrl`, `events`
and `cmds` then hold the object state and effects up to the raise point),
and `released`: the final value of the Part object whose ownership the
handler detached, reflecting its in-place mutations. -/
structure StepResult where
  ctrl : StationController
  events : List Event
  cmds : List Act
  exn : Bool
  released : Option Part
deriving DecidableEq, Repr

/-- `StationController._state_idle`: poll the station's entry sensor; on
detection read the tag, re-check the sensor (discarding the detection if
the part disappeared during the read), construct the Part (tag id or the
generated fallback `P<now_ms % 10000>`), log ENTER, append ENTER to the
part's history, and advance to ADVANCING_TO_PROCESS. -/
def StationController.state_idle (c : StationController) (env : Env) : StepResult :=
  let entry_sensor_check :=
    if c.station_num == 1 then env.station1_entry_before else env.station2_entry_before
  if entry_sensor_check then
    let tag_uid := env.nfc_tag
    let entry_sensor_check_after :=
      if c.station_num == 1 then env.station1_entry_after else env.station2_entry_after
    if !entry_sensor_check_after then
      { ctrl := c, events := [], cmds := [], exn := false, released := none }
    else
      let part0 :=
        match tag_uid with
        | some uid => Part.fromId uid
        | none => Part.fromId ("P" ++ toString (env.now_ms % 10000))
      let part1 := part0.add_event c.station_id "ENTER"
      { ctrl := { c with current_part := some part1,
                         state := StationState.ADVANCING_TO_PROCESS }
        events := [{ part_id := part0.part_id, station_id := c.station_id,
                     activity := "ENTER" }]
        cmds := []
        exn := false
        released := none }
  else
    { ctrl := c, events := [], cmds := [], exn := false, released := none }

/-- `StationController._state_advancing_to_process`: run the motor, wait
(bounded) for the station's process-position sensor, stop the motor
unconditionally; on trigger go to PROCESSING, on timeout log
`ERROR_TIMEOUT_PROCESS`, drop the part and return to IDLE. Reading
`current_part.part_id` with no part raises. -/
def StationController.state_advancing_to_process (c : StationController) (env : Env) :
    StepResult :=
  let sensor_triggered :=
    if c.station_num == 1 then env.wait_station1_process else env.wait_station2_process
  let cmds := [Act.set_speed c.motor_num c.motor_speed, Act.stop c.motor_num]
  if sensor_triggered then
    { ctrl := { c with state := StationState.PROCESSING }
      events := [], cmds := cmds, exn := false, released := none }
  else
    match c.current_part with
    | none =>
      { ctrl := c, events := [], cmds := cmds, exn := true, released := none }
    | some p =>
      { ctrl := { c with current_part := none, state := StationState.IDLE }
        events := [{ part_id := p.part_id, station_id := c.station_id,
                     activity := "ERROR_TIMEOUT_PROCESS" }]
        cmds := cmds
        exn := false
        released := some p }

/-- `StationController._state_processing`: sleep for the configured
process time, then advance to ADVANCING_TO_EXIT. -/
def StationController.state_processing (c : StationController) : StepResult :=
  { ctrl := { c with state := StationState.ADVANCING_TO_EXIT }
    events := []
    cmds := [Act.sleep c.process_time]
    exn := false
    released := none }

/-- `StationController._state_advancing_to_exit`: like
`state_advancing_to_process` but gated on the exit-position sensor; on
timeout logs `ERROR_TIMEOUT_EXIT` and abandons the part back to IDLE. -/
def StationController.state_advancing_to_exit (c : StationController) (env : Env) :
    StepResult :=
  let sensor_triggered :=
    if c.station_num == 1 then env.wait_station1_exit else env.wait_station2_exit
  let cmds := [Act.set_speed c.motor_num c.motor_speed, Act.stop c.motor_num]
  if sensor_triggered then
    { ctrl := { c with state := StationState.EXITING }
      events := [], cmds := cmds, exn := false, released := none }
  else
    match c.current_part with
    | none =>
      { ctrl := c, events := [], cmds := cmds, exn := true, released := none }
    | some p =>
      { ctrl := { c with current_part := none, state := StationState.IDLE }
        events := [{ part_id := p.part_id, station_id := c.station_id,
                     activity := "ERROR_TIMEOUT_EXIT" }]
        cmds := cmds
        exn := false
        released := some p }

/-- `StationController._state_exiting`: run the motor, poll the exit
sensor until it clears or the 5 s timeout elapses (this affects only
timing: the loop either breaks or falls through), stop the motor; if a
part is still owned log its EXIT and append EXIT to its history; then
unconditionally drop the part and return to IDLE. -/
def StationController.state_exiting (c : StationController) (env : Env) : StepResult :=
  let _cleared :=
    if c.station_num == 1 then env.station1_exit_clears else env.station2_exit_clears
  let cmds := [Act.set_speed c.motor_num c.motor_speed, Act.stop c.motor_num]
  match c.current_part with
  | some p =>
    { ctrl := { c with current_part := none, state := StationState.IDLE }
      events := [{ part_id := p.part_id, station_id := c.station_id,
                   activity := "EXIT" }]
      cmds := cmds
      exn := false
      released := some (p.add_event c.station_id "EXIT") }
  | none =>
    { ctrl := { c with current_part := none, state := StationState.IDLE }
      events := [], cmds := cmds, exn := false, released := none }

/-- The state dispatch of the loop body in `StationController._run`. -/
def StationController.stateStep (c : StationController) (env : Env) : StepResult :=
  match c.state with
  | StationState.IDLE => c.state_idle env
  | StationState.ADVANCING_TO_PROCESS => c.state_advancing_to_process env
  | StationState.PROCESSING => c.state_processing
  | StationState.ADVANCING_TO_EXIT => c.state_advancing_to_exit env
  | StationState.EXITING => c.state_exiting env

/-- One iteration of the `while` loop in `StationController._run`: run the
handler for the current state inside `try`; on normal completion sleep
0.05 s; on an exception stop the motor and back off 1 s, leaving the
controller object exactly as the handler left it (the state is not
reset). The exception never escapes the iteration. -/
def StationController.loopIter (c : StationController) (env : Env) :
    StationController × List Event × List Act :=
  let r := c.stateStep env
  if r.exn then
    (r.ctrl, r.events, r.cmds ++ [Act.stop c.motor_num, Act.sleep 1000])
  else
    (r.ctrl, r.events, r.cmds ++ [Act.sleep 50])

/-- Run the control loop over a finite schedule of per-iteration
environments, collecting the events logged. -/
def StationController.runLoop (c : StationController) :
    List Env → StationController × List Event
  | [] => (c, [])
  | e :: es =>
    let s := c.loopIter e
    let rest := s.1.runLoop es
    (rest.1, s.2.1 ++ rest.2)

/-- Events logged by the loop from the current state until the first
iteration that ends back in IDLE (the end of the current transit), on a
finite fuel and environment schedule. -/
def StationController.runUntilIdle : Nat → StationController → List Env → List Event
  | 0, _, _ => []
  | _ + 1, _, [] => []
  | n + 1, c, e :: es =>
    let s := c.loopIter e
    if s.1.state = StationState.IDLE then s.2.1
    else s.2.1 ++ StationController.runUntilIdle n s.1 es

/-- `StationController.start`: a no-op while already running; otherwise
set the flags, spawn the loop thread and remember it. -/
def StationController.start (c : StationController) : StationController :=
  if c.running then c
  else
    { c with running := true
             stop_event := false
             thread := some c.spawn_count
             spawn_count := c.spawn_count + 1 }

/-- `StationController.stop`: a no-op when not running; otherwise clear
the flags, join the thread (bounded 2 s) when one exists, and stop the
station motor. Returns the commands issued. -/
def StationController.stop (c : StationController) : StationController × List Act :=
  if !c.running then (c, [])
  else
    ({ c with running := false, stop_event := true },
     (match c.thread with
      | some _ => [Act.join 2000]
      | none => []) ++ [Act.stop c.motor_num])

/-- The ownership invariant of a controller: it holds a part exactly when
it is not IDLE. -/
def StationController.partStateInv (c : StationController) : Prop :=
  c.current_part = none ↔ c.state = StationState.IDLE

/-- `SensorReader.PI_PINS`: the ten Pi-native GPIO pins. -/
def SensorReaderPI_PINS : List Nat := [17, 27, 22, 5, 6, 13, 21, 12, 0, 1]

/-- `SensorReader.MCP_PIN_MAP`: the expander pin lookup table. -/
def SensorReaderMCP_PIN_MAP : List (String × Nat) :=
  [("CORNER1_RET", 0), ("CORNER2_RET", 1), ("CORNER3_RET", 2), ("CORNER4_RET", 3),
   ("CORNER1_EXT", 4), ("CORNER2_EXT", 5), ("CORNER3_EXT", 6), ("CORNER4_EXT", 7)]

/-- Outcome of the hardware-setup `try` block in `SensorReader.__init__`
(native GPIO setup, I2C bus and MCP23017 construction, expander pin
configuration). `ok` means every step succeeded. `fail` means some step
raised; it carries whether `self.mcp` had already been assigned and the
expander pin entries already placed into `self.mcp_pins` before the
raise. -/
inductive HWOutcome where
  | ok
  | fail (mcp_assigned : Bool) (pins_configured : List (String × Nat))
deriving DecidableEq, Repr

/-- The observable fields of a constructed `SensorReader`. `mcp_assigned`
models whether `self.mcp` holds a device object (vs `None`), and
`mcp_pins` the contents of the `self.mcp_pins` dictionary. -/
structure SensorReader where
  simulation : Bool
  mcp_assigned : Bool
  mcp_pins : List (String × Nat)
deriving DecidableEq, Repr

/-- `SensorReader.__init__`: the reader is simulated when requested or
when the hardware libraries failed to import (`HARDWARE_AVAILABLE` is
false). Otherwise live setup runs inside `try`: on success all eight
expander pins are configured; on any exception the failure is logged and
the reader falls back to simulated mode instead of raising — the
constructor is total, so hardware absence never prevents construction. -/
def SensorReader.construct (simulation : Bool) (hardware_available : Bool)
    (hw : HWOutcome) : SensorReader :=
  let sim := simulation || !hardware_available
  if sim then
    { simulation := sim, mcp_assigned := false, mcp_pins := [] }
  else
    match hw with
    | HWOutcome.ok =>
      { simulation := false, mcp_assigned := true, mcp_pins := SensorReaderMCP_PIN_MAP }
    | HWOutcome.fail mcp_assigned pins_configured =>
      { simulation := true, mcp_assigned := mcp_assigned, mcp_pins := pins_configured }

/-- One `_update_kpis` step keeps `total_parts = station1_count +
station2_count` when the station is `"S1"` or `"S2"`. -/
theorem KPIs.update_sum (k : KPIs) (sid act : String)
    (hs : sid = "S1" ∨ sid = "S2")
    (hk : k.total_parts = k.station1_count + k.station2_count) :
    (k.update sid act).total_parts =
      (k.update sid act).station1_count + (k.update sid act).station2_count := by
  rcases hs with hs | hs <;> subst hs <;>
    simp only [KPIs.update] <;> split <;> (try simp) <;> omega

/-- Replaying calls whose stations are all `"S1"` or `"S2"` preserves the
KPI sum invariant. -/
theorem DataLogger.replay_sum (d : DataLogger) (calls : List LogCall)
    (hd : d.kpis.total_parts = d.kpis.station1_count + d.kpis.station2_count)
    (h : ∀ call ∈ calls, call.station_id = "S1" ∨ call.station_id = "S2") :
    (d.replay calls).kpis.total_parts =
      (d.replay calls).kpis.station1_count + (d.replay calls).kpis.station2_count := by
  induction calls generalizing d with
  | nil => simpa [DataLogger.replay] using hd
  | cons c cs ih =>
    simp only [DataLogger.replay]
    exact ih _ (KPIs.update_sum d.kpis c.station_id c.activity
        (h c (List.mem_cons_self c cs)) hd)
      (fun call hc => h call (List.mem_cons_of_mem c hc))

/-- C3: starting from a fresh `DataLogger`, along any finite sequence of
`log_event` calls all of whose station ids are `"S1"` or `"S2"`, the KPI
counters satisfy `total_parts = station1_count + station2_count` after
every prefix of the sequence. -/
theorem C3_kpi_sum_invariant (calls : List LogCall)
    (h : ∀ call ∈ calls, call.station_id = "S1" ∨ call.station_id = "S2") :
    ∀ pre suf, calls = pre ++ suf →
      (DataLogger.fresh.replay pre).kpis.total_parts =
        (DataLogger.fresh.replay pre).kpis.station1_count +
          (DataLogger.fresh.replay pre).kpis.station2_count := by
  intro pre suf hsplit
  refine DataLogger.replay_sum _ _ rfl fun call hc => h call ?_
  rw [hsplit]
  exact List.mem_append_left suf hc

/-- Witness for C3 at a concrete two-call sequence. -/
theorem C3_kpi_sum_invariant_witness :
    (DataLogger.fresh.replay
        [⟨"t1", "P1", "S1", "EXIT"⟩, ⟨"t2", "P2", "S2", "ENTER"⟩]).kpis.total_parts =
      (DataLogger.fresh.replay
        [⟨"t1", "P1", "S1", "EXIT"⟩, ⟨"t2", "P2", "S2", "ENTER"⟩]).kpis.station1_count +
        (DataLogger.fresh.replay
          [⟨"t1", "P1", "S1", "EXIT"⟩, ⟨"t2", "P2", "S2", "ENTER"⟩]).kpis.station2_count :=
  C3_kpi_sum_invariant
    [⟨"t1", "P1", "S1", "EXIT"⟩, ⟨"t2", "P2", "S2", "ENTER"⟩]
    (by intro call hc; fin_cases hc <;> simp)
    [⟨"t1", "P1", "S1", "EXIT"⟩, ⟨"t2", "P2", "S2", "ENTER"⟩] [] rfl

/-- C5: a `log_event` call with activity other than `"EXIT"` leaves every
KPI counter unchanged; a call with activity `"EXIT"` increments
`total_parts` by one, increments `station1_count` exactly when the
station id is `"S1"` and `station2_count` exactly when it is `"S2"`, and
leaves all other counters unchanged. -/
theorem C5_log_event_kpi_frame (d : DataLogger) (ts pid sid act : String) :
    (act ≠ "EXIT" → (d.log_event ts pid sid act).kpis = d.kpis) ∧
    (act = "EXIT" →
      (d.log_event ts pid sid act).kpis.total_parts = d.kpis.total_parts + 1 ∧
      ((d.log_event ts pid sid act).kpis.station1_count = d.kpis.station1_count + 1 ↔
        sid = "S1") ∧
      (sid ≠ "S1" →
        (d.log_event ts pid sid act).kpis.station1_count = d.kpis.station1_count) ∧
      ((d.log_event ts pid sid act).kpis.station2_count = d.kpis.station2_count + 1 ↔
        sid = "S2") ∧
      (sid ≠ "S2" →
        (d.log_event ts pid sid act).kpis.station2_count = d.kpis.station2_count) ∧
      (d.log_event ts pid sid act).kpis.total_process_time = d.kpis.total_process_time ∧
      (d.log_event ts pid sid act).kpis.total_queue_time = d.kpis.total_queue_time) := by
  constructor
  · intro hact
    simp [DataLogger.log_event, KPIs.update, hact]
  · intro hact
    subst hact
    by_cases h1 : sid = "S1"
    · subst h1; simp [DataLogger.log_event, KPIs.update]
    · by_cases h2 : sid = "S2"
      · subst h2; simp [DataLogger.log_event, KPIs.update]
      · simp [DataLogger.log_event, KPIs.update, h1, h2]

/-- Witness for C5: a concrete `"EXIT"` call at station `"S2"`. -/
theorem C5_log_event_kpi_frame_witness :
    (DataLogger.fresh.log_event "t" "P9" "S2" "EXIT").kpis.total_parts =
      DataLogger.fresh.kpis.total_parts + 1 ∧
    ((DataLogger.fresh.log_event "t" "P9" "S2" "EXIT").kpis.station2_count =
      DataLogger.fresh.kpis.station2_count + 1 ↔ ("S2" : String) = "S2") :=
  ⟨((C5_log_event_kpi_frame DataLogger.fresh "t" "P9" "S2" "EXIT").2 rfl).1,
   ((C5_log_event_kpi_frame DataLogger.fresh "t" "P9" "S2" "EXIT").2 rfl).2.2.2.1⟩

/-- A sample configuration for the concrete instantiations below. -/
def cfg0 : Config :=
  { station1_process_time := 3000, station2_process_time := 5000, station_speed := 60 }

/-- A sample environment: a part is present at station 1's entry before
the tag read and gone after it; every bounded wait times out; the exit
sensor never clears. -/
def env0 : Env :=
  { station1_entry_before := true
    station2_entry_before := false
    nfc_tag := some "04A1B2"
    station1_entry_after := false
    station2_entry_after := false
    now_ms := 123456
    wait_station1_process := false
    wait_station2_process := false
    wait_station1_exit := false
    wait_station2_exit := false
    station1_exit_clears := false
    station2_exit_clears := false }

/-- A freshly constructed station-1 controller. -/
def cIdle0 : StationController := StationController.init 1 cfg0

/-- A station-1 controller advancing a part to the process position. -/
def cAdv0 : StationController :=
  { cIdle0 with state := StationState.ADVANCING_TO_PROCESS,
                current_part := some { part_id := "P1", history := [("S1", "ENTER")] } }

/-- A station-1 controller in ADVANCING_TO_PROCESS that has lost its part
(the situation in which the timeout branch raises). -/
def cAdvNone0 : StationController :=
  { cIdle0 with state := StationState.ADVANCING_TO_PROCESS }

/-- A station-1 controller in EXITING holding a part. -/
def cExit0 : StationController :=
  { cIdle0 with state := StationState.EXITING,
                current_part := some { part_id := "P1", history := [("S1", "ENTER")] } }

/-- C6: when the IDLE handler sees the entry sensor true, completes the
tag read, and then sees the entry sensor false on the re-query, the run
produces no log entries and no commands, leaves the state IDLE and the
current part unchanged — the whole controller object is untouched. -/
theorem C6_spurious_detection_discarded (c : StationController) (env : Env)
    (hstate : c.state = StationState.IDLE)
    (hbefore : (if c.station_num == 1 then env.station1_entry_before
                else env.station2_entry_before) = true)
    (hafter : (if c.station_num == 1 then env.station1_entry_after
               else env.station2_entry_after) = false) :
    c.stateStep env =
      { ctrl := c, events := [], cmds := [], exn := false, released := none } := by
  by_cases hn : (c.station_num == 1) = true <;>
    simp only [hn, if_true, if_false, Bool.false_eq_true] at hbefore hafter <;>
    simp [StationController.stateStep, hstate, StationController.state_idle,
      hn, hbefore, hafter]

/-- Witness for C6 at a concrete controller and environment. -/
theorem C6_spurious_detection_discarded_witness :
    cIdle0.stateStep env0 =
      { ctrl := cIdle0, events := [], cmds := [], exn := false, released := none } :=
  C6_spurious_detection_discarded cIdle0 env0 rfl rfl rfl

/-- C8: the `SensorReader` constructor is a total function of the
requested mode, library availability and hardware-setup outcome (so it
never raises); whenever live hardware setup fails, or the hardware
libraries are unavailable, it completes with the reader in simulated
mode. -/
theorem C8_sensor_construct_fallback (simulation hardware_available : Bool)
    (hw : HWOutcome) :
    (∀ m pins, hw = HWOutcome.fail m pins →
      (SensorReader.construct simulation hardware_available hw).simulation = true) ∧
    (hardware_available = false →
      (SensorReader.construct simulation hardware_available hw).simulation = true) := by
  constructor
  · intro m pins hfail
    subst hfail
    cases simulation <;> cases hardware_available <;>
      simp [SensorReader.construct]
  · intro havail
    subst havail
    cases simulation <;> cases hw <;> simp [SensorReader.construct]

/-- Witness for C8: expander setup fails after three pins were
configured; construction still yields a simulated reader. -/
theorem C8_sensor_construct_fallback_witness :
    (SensorReader.construct false true
      (HWOutcome.fail true [("CORNER1_RET", 0), ("CORNER2_RET", 1),
        ("CORNER3_RET", 2)])).simulation = true :=
  (C8_sensor_construct_fallback false true
    (HWOutcome.fail true [("CORNER1_RET", 0), ("CORNER2_RET", 1),
      ("CORNER3_RET", 2)])).1 true _ rfl

/-- C9: `start` while already running is the identity (and so spawns no
thread); `start` is idempotent, and the second application leaves the
spawn count unchanged — only one loop thread exists after two calls; and
`stop` on a controller that is not running returns it unchanged with no
commands issued. -/
theorem C9_start_stop_lifecycle (c : StationController) :
    (c.running = true → c.start = c) ∧
    c.start.start = c.start ∧
    c.start.start.spawn_count = c.start.spawn_count ∧
    (c.running = false → c.stop = (c, [])) := by
  refine ⟨?_, ?_, ?_, ?_⟩
  · intro hr
    simp [StationController.start, hr]
  · by_cases hr : c.running <;> simp [StationController.start, hr]
  · by_cases hr : c.running <;> simp [StationController.start, hr]
  · intro hr
    simp [StationController.stop, hr]

/-- Witness for C9: `stop` on the freshly built (never started)
controller is a no-op, and a double `start` equals a single one. -/
theorem C9_start_stop_lifecycle_witness :
    cIdle0.stop = (cIdle0, []) ∧ cIdle0.start.start = cIdle0.start :=
  ⟨(C9_start_stop_lifecycle cIdle0).2.2.2 rfl, (C9_start_stop_lifecycle cIdle0).2.1⟩

/-- C10: the freshly constructed controller satisfies `current_part =
none ↔ state = IDLE`, and any loop iteration whose state handler does not
raise preserves that invariant. -/
theorem C10_part_iff_not_idle (config : Config) :
    (∀ station_num, (StationController.init station_num config).partStateInv) ∧
    (∀ (c : StationController) (env : Env),
      c.partStateInv → (c.stateStep env).exn = false →
      ((c.loopIter env).1).partStateInv) := by
  constructor
  · intro station_num
    simp [StationController.init, StationController.partStateInv]
  · intro c env hinv hexn
    have h1 : (c.loopIter env).1 = (c.stateStep env).ctrl := by
      by_cases h : (c.stateStep env).exn = true <;>
        simp [StationController.loopIter, h]
    rw [h1]
    unfold StationController.partStateInv at hinv ⊢
    cases hcp : c.current_part with
    | none =>
      have hst : c.state = StationState.IDLE := hinv.mp hcp
      simp only [StationController.stateStep, hst, StationController.state_idle]
      split_ifs <;> simp [hcp, hst]
    | some p =>
      cases hst : c.state with
      | IDLE => rw [hcp, hst] at hinv; simp at hinv
      | ADVANCING_TO_PROCESS =>
        simp only [StationController.stateStep, hst,
          StationController.state_advancing_to_process, hcp]
        split_ifs <;> simp
      | PROCESSING =>
        simp [StationController.stateStep, hst,
          StationController.state_processing, hcp]
      | ADVANCING_TO_EXIT =>
        simp only [StationController.stateStep, hst,
          StationController.state_advancing_to_exit, hcp]
        split_ifs <;> simp
      | EXITING =>
        simp [StationController.stateStep, hst,
          StationController.state_exiting, hcp]

/-- Witness for C10: the invariant holds initially for station 1 and is
preserved across one concrete IDLE iteration. -/
theorem C10_part_iff_not_idle_witness :
    (StationController.init 1 cfg0).partStateInv ∧
    ((cIdle0.loopIter env0).1).partStateInv :=
  ⟨(C10_part_iff_not_idle cfg0).1 1,
   (C10_part_iff_not_idle cfg0).2 cIdle0 env0 (by simp [cIdle0, StationController.init,
     StationController.partStateInv]) (by decide)⟩

/-- C2: every EXITING run ends its command sequence by stopping the
motor; when a part is owned, exactly one EXIT event is logged for it and
EXIT is appended to the part's history (visible on the released object);
the part is detached and the state is set to IDLE unconditionally; and
the run's outcome is the same for every environment — in particular
whether the exit sensor cleared within the 5 s timeout or not. -/
theorem C2_exiting_always_exits (c : StationController) (env : Env)
    (hstate : c.state = StationState.EXITING) :
    (c.stateStep env).cmds.getLast? = some (Act.stop c.motor_num) ∧
    (∀ p, c.current_part = some p →
      (c.stateStep env).events =
        [{ part_id := p.part_id, station_id := c.station_id, activity := "EXIT" }] ∧
      (c.stateStep env).released =
        some { p with history := p.history ++ [(c.station_id, "EXIT")] }) ∧
    (c.stateStep env).ctrl.current_part = none ∧
    (c.stateStep env).ctrl.state = StationState.IDLE ∧
    (∀ env2, c.stateStep env2 = c.stateStep env) := by
  refine ⟨?_, ?_, ?_, ?_, ?_⟩
  · simp only [StationController.stateStep, hstate, StationController.state_exiting]
    cases c.current_part <;> simp
  · intro p hp
    simp [StationController.stateStep, hstate, StationController.state_exiting,
      hp, Part.add_event]
  · simp only [StationController.stateStep, hstate, StationController.state_exiting]
    cases c.current_part <;> simp
  · simp only [StationController.stateStep, hstate, StationController.state_exiting]
    cases c.current_part <;> simp
  · intro env2
    simp only [StationController.stateStep, hstate, StationController.state_exiting]

/-- Witness for C2: the concrete EXITING station-1 controller holding
part "P1", in the environment where the exit sensor never clears. -/
theorem C2_exiting_always_exits_witness :
    (cExit0.stateStep env0).events =
      [{ part_id := "P1", station_id := "S1", activity := "EXIT" }] ∧
    (cExit0.stateStep env0).ctrl.state = StationState.IDLE ∧
    (cExit0.stateStep env0).ctrl.current_part = none :=
  ⟨by
    have h := ((C2_exiting_always_exits cExit0 env0 rfl).2.1
      { part_id := "P1", history := [("S1", "ENTER")] } rfl).1
    simpa [cExit0, cIdle0, StationController.init] using h,
   (C2_exiting_always_exits cExit0 env0 rfl).2.2.2.1,
   (C2_exiting_always_exits cExit0 env0 rfl).2.2.1⟩

/-- C1: an advancing handler run (either advancing state) whose bounded
sensor wait returned false stops the motor (the command trace ends with
`motors.stop`), logs exactly the one corresponding timeout event for the
owned part, detaches the part, returns to IDLE without raising; that
single event is not an EXIT; and the remainder of the transit — the loop
run from this point until the state is back to IDLE — logs exactly that
timeout event under every fuel and environment schedule, so no EXIT is
ever logged for this transit and no transit logs both an EXIT and a
timeout error. -/
theorem C1_advancing_timeout_aborts (c : StationController) (env : Env) (p : Part)
    (hpart : c.current_part = some p)
    (hc : (c.state = StationState.ADVANCING_TO_PROCESS ∧
            (if c.station_num == 1 then env.wait_station1_process
             else env.wait_station2_process) = false) ∨
          (c.state = StationState.ADVANCING_TO_EXIT ∧
            (if c.station_num == 1 then env.wait_station1_exit
             else env.wait_station2_exit) = false)) :
    (c.stateStep env).cmds.getLast? = some (Act.stop c.motor_num) ∧
    (c.stateStep env).events =
      [{ part_id := p.part_id, station_id := c.station_id,
         activity := if c.state = StationState.ADVANCING_TO_PROCESS
                     then "ERROR_TIMEOUT_PROCESS" else "ERROR_TIMEOUT_EXIT" }] ∧
    (c.stateStep env).ctrl.current_part = none ∧
    (c.stateStep env).ctrl.state = StationState.IDLE ∧
    (c.stateStep env).exn = false ∧
    (∀ e ∈ (c.stateStep env).events, e.activity ≠ "EXIT") ∧
    (∀ fuel rest,
      StationController.runUntilIdle (fuel + 1) c (env :: rest) =
        [{ part_id := p.part_id, station_id := c.station_id,
           activity := if c.state = StationState.ADVANCING_TO_PROCESS
                       then "ERROR_TIMEOUT_PROCESS" else "ERROR_TIMEOUT_EXIT" }]) ∧
    (∀ fuel rest, ∀ e ∈ StationController.runUntilIdle (fuel + 1) c (env :: rest),
      e.activity ≠ "EXIT") := by
  have hstep : (c.stateStep env).cmds.getLast? = some (Act.stop c.motor_num) ∧
      (c.stateStep env).events =
        [{ part_id := p.part_id, station_id := c.station_id,
           activity := if c.state = StationState.ADVANCING_TO_PROCESS
                       then "ERROR_TIMEOUT_PROCESS" else "ERROR_TIMEOUT_EXIT" }] ∧
      (c.stateStep env).ctrl.current_part = none ∧
      (c.stateStep env).ctrl.state = StationState.IDLE ∧
      (c.stateStep env).exn = false := by
    rcases hc with ⟨hs, hw⟩ | ⟨hs, hw⟩ <;>
      by_cases hn : c.station_num = 1 <;>
      simp only [hn, beq_iff_eq, if_true, if_false, reduceIte] at hw <;>
      refine ⟨?_, ?_, ?_, ?_, ?_⟩ <;>
      simp [StationController.stateStep, hs,
        StationController.state_advancing_to_process,
        StationController.state_advancing_to_exit, hn, hw, hpart]
  obtain ⟨h1, h2, h3, h4, h5⟩ := hstep
  have hloop : c.loopIter env =
      ((c.stateStep env).ctrl, (c.stateStep env).events,
        (c.stateStep env).cmds ++ [Act.sleep 50]) := by
    simp [StationController.loopIter, h5]
  have hrun : ∀ fuel rest,
      StationController.runUntilIdle (fuel + 1) c (env :: rest) =
        [{ part_id := p.part_id, station_id := c.station_id,
           activity := if c.state = StationState.ADVANCING_TO_PROCESS
                       then "ERROR_TIMEOUT_PROCESS" else "ERROR_TIMEOUT_EXIT" }] := by
    intro fuel rest
    rw [StationController.runUntilIdle, hloop]
    simp [h4, h2]
  refine ⟨h1, h2, h3, h4, h5, ?_, hrun, ?_⟩
  · intro e he
    rw [h2] at he
    simp at he
    subst he
    split <;> simp
  · intro fuel rest e he
    rw [hrun fuel rest] at he
    simp at he
    subst he
    split <;> simp

/-- Witness for C1: station 1 advancing part "P1" to the process
position while the process-sensor wait times out. -/
theorem C1_advancing_timeout_aborts_witness :
    (cAdv0.stateStep env0).events =
      [{ part_id := "P1", station_id := "S1",
         activity := "ERROR_TIMEOUT_PROCESS" }] ∧
    (cAdv0.stateStep env0).ctrl.state = StationState.IDLE ∧
    StationController.runUntilIdle 1 cAdv0 [env0] =
      [{ part_id := "P1", station_id := "S1",
         activity := "ERROR_TIMEOUT_PROCESS" }] := by
  have h := C1_advancing_timeout_aborts cAdv0 env0
    { part_id := "P1", history := [("S1", "ENTER")] } rfl (Or.inl ⟨rfl, rfl⟩)
  refine ⟨?_, h.2.2.2.1, ?_⟩
  · have h2 := h.2.1
    simpa [cAdv0, cIdle0, StationController.init] using h2
  · have h7 := h.2.2.2.2.2.2.1 0 []
    simpa [cAdv0, cIdle0, StationController.init] using h7

/-- C7: when the state handler of an iteration raises, the loop-level
handler leaves the controller object exactly as the handler left it — in
particular the state is unchanged, not reset — appends a forced motor
stop and a 1 s backoff to the commands of that iteration, and the loop
goes on to process the whole remaining schedule from that controller:
the exception never escapes the loop (`loopIter` and `runLoop` are total
functions into plain results, with no error outcome). -/
theorem C7_loop_survives_handler_exception (c : StationController) (env : Env)
    (hexn : (c.stateStep env).exn = true) :
    (c.loopIter env).1 = c ∧
    (c.loopIter env).1.state = c.state ∧
    (c.loopIter env).2.2 =
      (c.stateStep env).cmds ++ [Act.stop c.motor_num, Act.sleep 1000] ∧
    (∀ rest, c.runLoop (env :: rest) =
      (((c.loopIter env).1.runLoop rest).1,
        (c.loopIter env).2.1 ++ ((c.loopIter env).1.runLoop rest).2)) := by
  have hctrl : (c.stateStep env).ctrl = c := by
    cases hst : c.state with
    | IDLE =>
      simp only [StationController.stateStep, hst,
        StationController.state_idle] at hexn
      split_ifs at hexn
    | ADVANCING_TO_PROCESS =>
      simp only [StationController.stateStep, hst,
        StationController.state_advancing_to_process] at hexn ⊢
      rcases hcp : c.current_part with _ | p <;> simp only [hcp] at hexn ⊢ <;>
        split_ifs at hexn ⊢ <;> simp_all
    | PROCESSING =>
      simp [StationController.stateStep, hst,
        StationController.state_processing] at hexn
    | ADVANCING_TO_EXIT =>
      simp only [StationController.stateStep, hst,
        StationController.state_advancing_to_exit] at hexn ⊢
      rcases hcp : c.current_part with _ | p <;> simp only [hcp] at hexn ⊢ <;>
        split_ifs at hexn ⊢ <;> simp_all
    | EXITING =>
      rcases hcp : c.current_part with _ | p <;>
        simp [StationController.stateStep, hst,
          StationController.state_exiting, hcp] at hexn
  refine ⟨?_, ?_, ?_, ?_⟩
  · simp [StationController.loopIter, hexn, hctrl]
  · simp [StationController.loopIter, hexn, hctrl]
  · simp [StationController.loopIter, hexn]
  · intro rest
    simp [StationController.runLoop]

/-- Witness for C7: station 1 stuck in ADVANCING_TO_PROCESS with no
owned part; the timeout branch raises, the loop keeps the state and
stops the motor. -/
theorem C7_loop_survives_handler_exception_witness :
    (cAdvNone0.loopIter env0).1 = cAdvNone0 ∧
    (cAdvNone0.loopIter env0).1.state = StationState.ADVANCING_TO_PROCESS :=
  ⟨(C7_loop_survives_handler_exception cAdvNone0 env0 (by decide)).1,
   (C7_loop_survives_handler_exception cAdvNone0 env0 (by decide)).2.1⟩

end Manu
